import Mathlib

/-!
Shallow embedding of the booking / availability / conversation / notification
slice of the `totobackend` Django application (`core/models.py`,
`core/serializers.py`, `core/services.py`, `core/views.py`).

Entities carry the model fields the in-scope operations touch; timestamps are
`Nat` ticks, monetary amounts are scaled integers (`Int`, so negative inputs
are representable, as the source performs no sign validation), and Django's
per-table autoincrement primary keys are per-table `next…Id` counters on the
store.  Each HTTP action or service function becomes a Lean function on the
store; fallible actions return `Except ApiError`.
-/

/-- A row of the custom `User` model (`core/models.py`).  `role` is the raw
string of the `Role` choices: `"ADMIN"`, `"INSTRUCTOR"` or `"STUDENT"`. -/
structure User where
  id : Nat
  email : String
  name : String
  role : String
  is_active : Bool
deriving DecidableEq

/-- A row of `Conversation` (`core/models.py`): many-to-many participants,
optional title, `last_message_at` maintained by `auto_now` on save.
Django's default ordering for the table is `-last_message_at`. -/
structure Conversation where
  id : Nat
  participants : List Nat
  title : String
  last_message_at : Nat
deriving DecidableEq

/-- A row of `Message` (`core/models.py`): foreign keys to conversation and
sender, content, `is_read` defaulting to false, nullable `read_at`. -/
structure Message where
  id : Nat
  conversation : Nat
  sender : Nat
  content : String
  is_read : Bool
  read_at : Option Nat
deriving DecidableEq

/-- A row of `Booking` (`core/models.py`).  `status` is one of the raw
strings `"pending"`, `"confirmed"`, `"cancelled"`, `"completed"`, defaulting
to `"pending"`; `total_amount` is a decimal, modelled as a scaled integer. -/
structure Booking where
  id : Nat
  student : Nat
  instructor : Nat
  homestay : Option Nat
  start_date : Int
  end_date : Int
  status : String
  total_amount : Int
  notes : String
deriving DecidableEq

/-- A row of `TimeSlot` (`core/models.py`): instructor foreign key, start and
end timestamps, `is_available` defaulting to true, `recurring` flag. -/
structure TimeSlot where
  id : Nat
  instructor : Nat
  start_time : Int
  end_time : Int
  is_available : Bool
  recurring : Bool
deriving DecidableEq

/-- A row of `Notification` (`core/models.py`): target user, type string
(`"message"`, `"booking"`, `"payment"`, `"system"`), title, message body,
`is_read` defaulting to false, and a loosely typed related-object reference. -/
structure Notification where
  id : Nat
  user : Nat
  notification_type : String
  title : String
  message : String
  is_read : Bool
  related_object_id : Option Nat
  related_content_type : String
deriving DecidableEq

/-- The database state: one list per in-scope table (in insertion order, as
rows are appended by `objects.create`), plus the autoincrement counters. -/
structure Store where
  users : List User
  conversations : List Conversation
  messages : List Message
  bookings : List Booking
  timeslots : List TimeSlot
  notifications : List Notification
  nextConversationId : Nat
  nextMessageId : Nat
  nextBookingId : Nat
  nextTimeSlotId : Nat
  nextNotificationId : Nat
deriving DecidableEq

/-- Failure modes surfaced by the in-scope views: DRF serializer validation
failure (HTTP 400), `get_object` / `objects.get` miss (HTTP 404),
authorization failure (HTTP 403), and the bare Python `PermissionError`
raised by `TimeSlotViewSet.perform_create`. -/
inductive ApiError where
  | validationError
  | notFound
  | notAuthorized
  | permissionError
deriving DecidableEq

/-- `NotificationService.send_notification` (`core/services.py`):
unconditionally creates a notification row for `user`; the related object is
recorded as a loosely typed (content-type name, id) pair. -/
def send_notification (s : Store) (user : Nat) (notification_type title message : String)
    (related_object_id : Option Nat) (related_content_type : String) :
    Store × Notification :=
  let notification : Notification :=
    { id := s.nextNotificationId
      user := user
      notification_type := notification_type
      title := title
      message := message
      is_read := false
      related_object_id := related_object_id
      related_content_type := related_content_type }
  ({ s with
      notifications := s.notifications ++ [notification]
      nextNotificationId := s.nextNotificationId + 1 },
   notification)

/-- `BookingService.create_booking` (`core/services.py`): creates the booking
row (status takes the model default `"pending"`; no validation of the time
range or the amount is performed), then synchronously sends a `"booking"`
notification to the instructor with the booking as related object. -/
def create_booking (s : Store) (student instructor : User) (start_date end_date : Int)
    (total_amount : Int) (homestay : Option Nat) : Store × Booking :=
  let booking : Booking :=
    { id := s.nextBookingId
      student := student.id
      instructor := instructor.id
      homestay := homestay
      start_date := start_date
      end_date := end_date
      status := "pending"
      total_amount := total_amount
      notes := "" }
  let s1 : Store :=
    { s with
        bookings := s.bookings ++ [booking]
        nextBookingId := s.nextBookingId + 1 }
  let s2 := (send_notification s1 instructor.id "booking" "New Booking Request"
      ("You have a new booking request from " ++ student.name)
      (some booking.id) "Booking").1
  (s2, booking)

/-- `BookingViewSet.get_queryset` (`core/views.py`): students see their own
bookings, instructors theirs, anyone else sees all bookings. -/
def booking_queryset (s : Store) (user : User) : List Booking :=
  if user.role = "STUDENT" then s.bookings.filter (fun b => b.student == user.id)
  else if user.role = "INSTRUCTOR" then s.bookings.filter (fun b => b.instructor == user.id)
  else s.bookings

/-- `self.get_object()` inside `BookingViewSet`: primary-key lookup within
the role-filtered queryset (a miss is an HTTP 404). -/
def get_booking (s : Store) (user : User) (pk : Nat) : Option Booking :=
  (booking_queryset s user).find? (fun b => b.id == pk)

/-- `BookingViewSet.confirm` (`core/views.py`): 404 if the booking is not in
the requester's queryset, 403 unless the requester is the booking's
instructor, otherwise sets `status = "confirmed"` and saves — with no check
of the booking's current status. -/
def confirm (s : Store) (request_user : User) (pk : Nat) : Except ApiError Store :=
  match get_booking s request_user pk with
  | none => .error .notFound
  | some booking =>
    if booking.instructor ≠ request_user.id then .error .notAuthorized
    else .ok { s with
        bookings := s.bookings.map (fun b =>
          if b.id == booking.id then { b with status := "confirmed" } else b) }

/-- `BookingViewSet.cancel` (`core/views.py`): 404 if the booking is not in
the requester's queryset, 403 unless the requester is the booking's student
or instructor, otherwise sets `status = "cancelled"` and saves — with no
check of the booking's current status. -/
def cancel (s : Store) (request_user : User) (pk : Nat) : Except ApiError Store :=
  match get_booking s request_user pk with
  | none => .error .notFound
  | some booking =>
    if booking.student ≠ request_user.id ∧ booking.instructor ≠ request_user.id then
      .error .notAuthorized
    else .ok { s with
        bookings := s.bookings.map (fun b =>
          if b.id == booking.id then { b with status := "cancelled" } else b) }

/-- The bulk update `conversation.messages.filter(is_read=False)
.exclude(sender=request.user).update(is_read=True)` of
`MessageViewSet.perform_create`, as its per-row effect: an unread message of
the conversation whose sender is not the requester becomes read; any other
row is untouched. -/
def mark_other_read (conversation_id sender_id : Nat) (m : Message) : Message :=
  if m.conversation == conversation_id && !m.is_read && m.sender != sender_id
  then { m with is_read := true } else m

/-- `MessageViewSet.perform_create` together with `MessageSerializer`
(`core/views.py`, `core/serializers.py`): the serializer resolves the
`conversation` foreign key against all conversations (400 on a miss) and
performs no participant check; the view then saves the message with
`sender = request.user`, marks every unread message in the conversation not
sent by the requester as read, and saves the conversation (whose
`last_message_at` is bumped by `auto_now`). -/
def send_message (s : Store) (conversation_id : Nat) (request_user : User)
    (content : String) (now : Nat) : Except ApiError Store :=
  match s.conversations.find? (fun c => c.id == conversation_id) with
  | none => .error .validationError
  | some _ =>
    let message : Message :=
      { id := s.nextMessageId
        conversation := conversation_id
        sender := request_user.id
        content := content
        is_read := false
        read_at := none }
    .ok { s with
        messages := (s.messages ++ [message]).map
          (mark_other_read conversation_id request_user.id)
        conversations := s.conversations.map (fun c =>
          if c.id == conversation_id then { c with last_message_at := now } else c)
        nextMessageId := s.nextMessageId + 1 }

/-- `TimeSlotViewSet.perform_create` with `TimeSlotSerializer`
(`core/views.py`, `core/serializers.py`) — the spec's `publish_slot`: raises
`PermissionError` unless the requester's role is `"INSTRUCTOR"`, then creates
the slot with the given fields (`is_available` takes the model default
`true`).  Neither the serializer nor the view validates `start_time <
end_time`. -/
def publish_slot (s : Store) (request_user : User) (start_time end_time : Int)
    (recurring : Bool) : Except ApiError (Store × TimeSlot) :=
  if request_user.role ≠ "INSTRUCTOR" then .error .permissionError
  else
    let slot : TimeSlot :=
      { id := s.nextTimeSlotId
        instructor := request_user.id
        start_time := start_time
        end_time := end_time
        is_available := true
        recurring := recurring }
    .ok ({ s with
        timeslots := s.timeslots ++ [slot]
        nextTimeSlotId := s.nextTimeSlotId + 1 },
      slot)

/-- The per-row effect of the bulk update in `NotificationViewSet.mark_read`
(`core/views.py`): `Notification.objects.filter(id__in=ids, user=request.user)
.update(is_read=True)` sets `is_read` on a matched row and leaves every other
row untouched. -/
def mark_notification_read (notification_ids : List Nat) (request_user : Nat)
    (n : Notification) : Notification :=
  if notification_ids.contains n.id && n.user == request_user
  then { n with is_read := true } else n

/-- `NotificationViewSet.mark_read` (`core/views.py`): filters the caller's
notifications by the submitted ids and bulk-updates `is_read = True`.  Ids
that do not exist or belong to another user are simply not matched by the
filter.  The second component is the row count returned by Django's
`.update()` (the number of matched rows); the view discards it and returns
only a status string. -/
def mark_read (s : Store) (request_user : Nat) (notification_ids : List Nat) :
    Store × Nat :=
  let matched := s.notifications.filter (fun n =>
    notification_ids.contains n.id && n.user == request_user)
  ({ s with
      notifications := s.notifications.map
        (mark_notification_read notification_ids request_user) },
   matched.length)

/-- Stable insertion of a conversation into a list sorted by
`last_message_at` descending: `c` goes before the first strictly older row. -/
def insertConvDesc (c : Conversation) : List Conversation → List Conversation
  | [] => [c]
  | d :: ds =>
    if d.last_message_at < c.last_message_at then c :: d :: ds
    else d :: insertConvDesc c ds

/-- Django's default ordering for the `conversation` table
(`Meta.ordering = ["-last_message_at"]`), as a stable sort. -/
def sortConvDesc : List Conversation → List Conversation
  | [] => []
  | c :: cs => insertConvDesc c (sortConvDesc cs)

/-- The queryset of `ConversationViewSet.direct_chat`:
`Conversation.objects.filter(participants=user).filter(participants=other_user).first()`
— the first conversation, under the table's `-last_message_at` ordering,
whose participants include both users (not necessarily exactly those two). -/
def direct_chat_query (s : Store) (user_id other_id : Nat) : Option Conversation :=
  (sortConvDesc s.conversations).find? (fun c =>
    c.participants.contains user_id && c.participants.contains other_id)

/-- `ConversationViewSet.direct_chat` (`core/views.py`): resolves the other
user (`User.objects.get`, 404 on a miss), returns the first conversation
containing both users if one exists, otherwise creates a conversation titled
from the other participant's name with exactly the two participants. -/
def direct_chat (s : Store) (request_user : User) (other_user_id : Nat) (now : Nat) :
    Except ApiError (Store × Conversation) :=
  match s.users.find? (fun u => u.id == other_user_id) with
  | none => .error .notFound
  | some other_user =>
    match direct_chat_query s request_user.id other_user.id with
    | some conversation => .ok (s, conversation)
    | none =>
      let conversation : Conversation :=
        { id := s.nextConversationId
          participants := [request_user.id, other_user.id]
          title := "Chat with " ++ other_user.name
          last_message_at := now }
      .ok ({ s with
          conversations := s.conversations ++ [conversation]
          nextConversationId := s.nextConversationId + 1 },
        conversation)

/-- Modelled from the spec: "the returned count equals exactly the number of
the caller's own matching unread notifications among `ids`" — the count the
spec claims `mark_read` returns, for comparison with the code's behaviour. -/
def spec_mark_read_count (s : Store) (request_user : Nat)
    (notification_ids : List Nat) : Nat :=
  (s.notifications.filter (fun n =>
    notification_ids.contains n.id && n.user == request_user && !n.is_read)).length

/-! ## General list lemmas shared by the claim proofs -/

/-- A true conjunction of Bools splits into its true conjuncts. -/
theorem bool_and_split (a b : Bool) (h : (a && b) = true) : a = true ∧ b = true := by
  cases a
  · cases h
  · cases b
    · cases h
    · exact ⟨rfl, rfl⟩

/-- A negated Bool that holds means the underlying Bool is `false`. -/
theorem bool_false_of_not (b : Bool) (h : (!b) = true) : b = false := by
  cases b
  · rfl
  · cases h

/-- Mapping a function that fixes every element satisfying `p` and never
changes `p`-status commutes away under `filter p`. -/
theorem filter_map_of_invariant {α : Type} (f : α → α) (p : α → Bool) (l : List α)
    (hf : ∀ a, p a = true → f a = a) (hp : ∀ a, p (f a) = p a) :
    (l.map f).filter p = l.filter p := by
  induction l with
  | nil => rfl
  | cons a l ih =>
    by_cases h : p a = true
    · have hfa := hf a h
      simp [List.filter_cons, hp a, h, hfa, ih]
    · have h' : p a = false := by simpa using h
      simp [List.filter_cons, hp a, h', ih]

/-- `find?` returns the unique element satisfying the predicate, whatever the
order of the list. -/
theorem find?_of_unique_match {α : Type} (p : α → Bool) (l : List α) (c : α)
    (hc : c ∈ l) (hpc : p c = true) (huniq : ∀ x ∈ l, p x = true → x = c) :
    l.find? p = some c := by
  induction l with
  | nil => cases hc
  | cons a l ih =>
    by_cases ha : p a = true
    · have hac : a = c := huniq a (List.mem_cons_self a l) ha
      subst hac
      simp [List.find?_cons, ha]
    · have ha' : p a = false := by simpa using ha
      have hcl : c ∈ l := by
        cases List.mem_cons.mp hc with
        | inl h => rw [h] at hpc; simp [hpc] at ha'
        | inr h => exact h
      have hrec := ih hcl (fun x hx hpx => huniq x (List.mem_cons_of_mem a hx) hpx)
      simp [List.find?_cons, ha', hrec]

/-- `find?` only depends on the pointwise behaviour of the predicate. -/
theorem find?_ext {α : Type} (p q : α → Bool) (l : List α) (h : ∀ x, p x = q x) :
    l.find? p = l.find? q := by
  induction l with
  | nil => rfl
  | cons a l ih => rw [List.find?_cons, List.find?_cons, h a, ih]

/-- Membership is preserved by the stable insertion step of the conversation
sort. -/
theorem mem_insertConvDesc (c x : Conversation) (l : List Conversation) :
    x ∈ insertConvDesc c l ↔ x = c ∨ x ∈ l := by
  induction l with
  | nil => simp [insertConvDesc]
  | cons d ds ih =>
    by_cases h : d.last_message_at < c.last_message_at
    · simp [insertConvDesc, h]
    · simp [insertConvDesc, h, ih]
      tauto

/-- Membership is preserved by the conversation sort. -/
theorem mem_sortConvDesc (x : Conversation) (l : List Conversation) :
    x ∈ sortConvDesc l ↔ x ∈ l := by
  induction l with
  | nil => simp [sortConvDesc]
  | cons c cs ih => simp [sortConvDesc, mem_insertConvDesc, ih]

/-! ## Concrete fixtures -/

/-- Fixture: a student user. -/
def student1 : User := ⟨1, "sam@example.com", "Sam", "STUDENT", true⟩

/-- Fixture: an instructor user. -/
def instructor2 : User := ⟨2, "ina@example.com", "Ina", "INSTRUCTOR", true⟩

/-- Fixture: a second student user, unrelated to the others' data. -/
def student3 : User := ⟨3, "cal@example.com", "Cal", "STUDENT", true⟩

/-- Fixture: the empty database. -/
def emptyStore : Store := ⟨[], [], [], [], [], [], 1, 1, 1, 1, 1⟩

/-! ## C1 — terminal statuses -/

/-- Fixture: a booking of `student1` with `instructor2` that has already been
cancelled. -/
def c1_booking : Booking := ⟨1, 1, 2, none, 10, 11, "cancelled", 5000, ""⟩

/-- Fixture: store holding the cancelled booking. -/
def c1_store : Store :=
  { emptyStore with
      users := [student1, instructor2]
      bookings := [c1_booking]
      nextBookingId := 2 }

/-- **C1, counterexample**: `cancelled` is not terminal — `confirm` by the
booking's instructor moves a booking whose status is `"cancelled"` to
`"confirmed"`. -/
theorem confirm_resurrects_cancelled :
    c1_store.bookings.map Booking.status = ["cancelled"] ∧
    (confirm c1_store instructor2 1).map (fun t => t.bookings.map Booking.status) =
      .ok ["confirmed"] :=
  ⟨rfl, rfl⟩

/-- **C1, amended**: neither `confirm` nor `cancel` inspects the booking's
current status: for any booking visible to its instructor — whatever its
status, including `"cancelled"` and `"completed"` — `confirm` sets the status
to `"confirmed"` and `cancel` sets it to `"cancelled"`; only the actor is
checked, so `cancelled` and `completed` are not terminal states. -/
theorem confirm_cancel_ignore_status (s : Store) (request_user : User) (pk : Nat)
    (b : Booking) (hb : get_booking s request_user pk = some b)
    (hi : b.instructor = request_user.id) :
    confirm s request_user pk = .ok { s with bookings := s.bookings.map (fun x =>
        if x.id == b.id then { x with status := "confirmed" } else x) } ∧
    cancel s request_user pk = .ok { s with bookings := s.bookings.map (fun x =>
        if x.id == b.id then { x with status := "cancelled" } else x) } := by
  constructor
  · simp [confirm, hb, hi]
  · simp [cancel, hb, hi]

/-- Witness for `confirm_cancel_ignore_status`, applied to the cancelled
booking of `c1_store`. -/
theorem confirm_cancel_ignore_status_witness :
    confirm c1_store instructor2 1 = .ok { c1_store with
        bookings := c1_store.bookings.map (fun x =>
          if x.id == c1_booking.id then { x with status := "confirmed" } else x) } ∧
    cancel c1_store instructor2 1 = .ok { c1_store with
        bookings := c1_store.bookings.map (fun x =>
          if x.id == c1_booking.id then { x with status := "cancelled" } else x) } :=
  confirm_cancel_ignore_status c1_store instructor2 1 c1_booking rfl rfl

/-! ## C2 — sending as a non-participant -/

/-- Fixture: a conversation between users 1 and 2 only. -/
def c2_conversation : Conversation := ⟨1, [1, 2], "", 0⟩

/-- Fixture: store with that conversation and a third, non-participant user. -/
def c2_store : Store :=
  { emptyStore with
      users := [student1, instructor2, student3]
      conversations := [c2_conversation]
      nextConversationId := 2 }

/-- **C2, bug demo**: user 3 is not a participant of conversation 1, yet
`send_message` succeeds and the message count grows from 0 to 1 — neither the
serializer nor the view checks participation on create, while the spec (and
the view's own docstring scoping CRUD to the user's conversations) require an
`AuthorizationError` with the count unchanged. -/
theorem send_message_skips_participant_check :
    c2_conversation.participants.contains student3.id = false ∧
    (send_message c2_store 1 student3 "hi" 5).map (fun t => t.messages.length) =
      .ok (c2_store.messages.length + 1) :=
  ⟨rfl, rfl⟩

/-! ## C3 — sending marks other participants' unread messages read -/

/-- The update of `perform_create` leaves the requester's own messages
untouched. -/
theorem mark_other_read_self (cid sid : Nat) (m : Message) (h : (m.sender == sid) = true) :
    mark_other_read cid sid m = m := by
  have hc : (m.conversation == cid && !m.is_read && m.sender != sid) = false := by
    simp [bne, h]
  simp [mark_other_read, hc]

/-- The update of `perform_create` never changes a message's sender. -/
theorem mark_other_read_sender (cid sid : Nat) (m : Message) :
    (mark_other_read cid sid m).sender = m.sender := by
  unfold mark_other_read
  by_cases h : (m.conversation == cid && !m.is_read && m.sender != sid) = true
  · simp [h]
  · simp [eq_false_of_ne_true h]

/-- The update of `perform_create` never changes a message's `read_at`. -/
theorem mark_other_read_read_at (cid sid : Nat) (m : Message) :
    (mark_other_read cid sid m).read_at = m.read_at := by
  unfold mark_other_read
  by_cases h : (m.conversation == cid && !m.is_read && m.sender != sid) = true
  · simp [h]
  · simp [eq_false_of_ne_true h]

/-- After the update of `perform_create`, no message of the conversation by
another sender remains unread. -/
theorem mark_other_read_none_left (cid sid : Nat) (m : Message) :
    ((mark_other_read cid sid m).conversation == cid &&
     (mark_other_read cid sid m).sender != sid &&
     !(mark_other_read cid sid m).is_read) = false := by
  unfold mark_other_read
  cases h1 : (m.conversation == cid) <;>
    cases h2 : m.is_read <;>
      cases h3 : (m.sender == sid) <;>
        simp [h1, h2, h3, bne]

/-- **C3**: after a participant sends a message in a conversation, no message
of that conversation by another sender is left unread (so every previously
unread one was set read), the sender's own messages are carried over verbatim
— read flags untouched — with the new message appended, and exactly one
message was added in total. -/
theorem send_message_marks_others_read (s : Store) (cid : Nat) (sender : User)
    (content : String) (now : Nat) (conv : Conversation) (s' : Store)
    (hconv : s.conversations.find? (fun c => c.id == cid) = some conv)
    (_hpart : sender.id ∈ conv.participants)
    (hr : send_message s cid sender content now = .ok s') :
    s'.messages.countP
        (fun m => m.conversation == cid && m.sender != sender.id && !m.is_read) = 0 ∧
    s'.messages.filter (fun m => m.sender == sender.id) =
      s.messages.filter (fun m => m.sender == sender.id) ++
        [⟨s.nextMessageId, cid, sender.id, content, false, none⟩] ∧
    s'.messages.length = s.messages.length + 1 := by
  simp only [send_message, hconv, Except.ok.injEq] at hr
  subst hr
  refine ⟨?_, ?_, ?_⟩
  · rw [List.countP_eq_zero]
    intro a ha
    rcases List.mem_map.mp ha with ⟨m, _, rfl⟩
    simpa using mark_other_read_none_left cid sender.id m
  · rw [List.map_append, List.filter_append,
      filter_map_of_invariant (mark_other_read cid sender.id)
        (fun m => m.sender == sender.id) s.messages
        (fun a hpa => mark_other_read_self cid sender.id a hpa)
        (fun a => by simp only [mark_other_read_sender])]
    congr 1
    simp [mark_other_read, bne]
  · simp

/-- Fixture: the conversation of users 1 and 2 used for the C3 scenario. -/
def c3_conversation : Conversation := ⟨1, [1, 2], "", 0⟩

/-- Fixture: an unread message from user 2 in that conversation. -/
def c3_message : Message := ⟨1, 1, 2, "hello", false, none⟩

/-- Fixture: store for the C3 scenario. -/
def c3_store : Store :=
  { emptyStore with
      users := [student1, instructor2]
      conversations := [c3_conversation]
      messages := [c3_message]
      nextConversationId := 2
      nextMessageId := 2 }

/-- Fixture: the store after `student1` sends "hi" in conversation 1 at
tick 9: user 2's message is now read, the new message is appended unread,
and the conversation's last-activity timestamp is bumped. -/
def c3_result : Store :=
  { c3_store with
      messages := [⟨1, 1, 2, "hello", true, none⟩, ⟨2, 1, 1, "hi", false, none⟩]
      conversations := [⟨1, [1, 2], "", 9⟩]
      nextMessageId := 3 }

/-- Witness for `send_message_marks_others_read` on the concrete C3
scenario. -/
theorem send_message_marks_others_read_witness :
    c3_result.messages.countP
        (fun m => m.conversation == 1 && m.sender != student1.id && !m.is_read) = 0 ∧
    c3_result.messages.filter (fun m => m.sender == student1.id) =
      c3_store.messages.filter (fun m => m.sender == student1.id) ++
        [⟨c3_store.nextMessageId, 1, student1.id, "hi", false, none⟩] ∧
    c3_result.messages.length = c3_store.messages.length + 1 :=
  send_message_marks_others_read c3_store 1 student1 "hi" 9 c3_conversation c3_result
    rfl (by decide) rfl

/-! ## C4 — create_booking: pending status and one instructor notification -/

/-- **C4**: every `create_booking` returns a booking whose status is
`"pending"` and appends exactly one notification row, whose target user is
the instructor and whose type is `"booking"`. -/
theorem create_booking_pending_notifies (s : Store) (student instructor : User)
    (start_date end_date total_amount : Int) (homestay : Option Nat) :
    (create_booking s student instructor start_date end_date total_amount
        homestay).2.status = "pending" ∧
    (create_booking s student instructor start_date end_date total_amount
        homestay).1.notifications.map Notification.user =
      s.notifications.map Notification.user ++ [instructor.id] ∧
    (create_booking s student instructor start_date end_date total_amount
        homestay).1.notifications.map Notification.notification_type =
      s.notifications.map Notification.notification_type ++ ["booking"] := by
  refine ⟨rfl, ?_, ?_⟩ <;> simp [create_booking, send_notification]

/-! ## C5 — mark_read semantics -/

/-- Fixture: a notification of user 1 that is already read. -/
def c5_read_notification : Notification := ⟨10, 1, "system", "t", "m", true, none, ""⟩

/-- Fixture: an unread notification of user 1. -/
def c5_unread_notification : Notification := ⟨11, 1, "system", "t", "m", false, none, ""⟩

/-- Fixture: store for the C5 scenario. -/
def c5_store : Store :=
  { emptyStore with
      users := [student1]
      notifications := [c5_read_notification, c5_unread_notification]
      nextNotificationId := 12 }

/-- **C5, counterexample**: with one already-read and one unread owned
notification among the ids, the row count of the code's bulk update is 2,
while the number of the caller's own matching *unread* notifications — the
count the claim says is returned — is 1.  (The view moreover discards the
count entirely, returning only a status string.) -/
theorem mark_read_count_mismatch :
    (mark_read c5_store 1 [10, 11]).2 = 2 ∧
    spec_mark_read_count c5_store 1 [10, 11] = 1 :=
  ⟨rfl, rfl⟩

/-- The bulk update of `mark_read` leaves unmatched rows (ids not submitted,
or rows of another user) untouched. -/
theorem mark_notification_read_skip (ids : List Nat) (u : Nat) (n : Notification)
    (h : (ids.contains n.id && n.user == u) = false) :
    mark_notification_read ids u n = n := by
  unfold mark_notification_read
  split
  · next hc => rw [h] at hc; cases hc
  · rfl

/-- The bulk update of `mark_read` never changes a notification's id. -/
theorem mark_notification_read_id (ids : List Nat) (u : Nat) (n : Notification) :
    (mark_notification_read ids u n).id = n.id := by
  unfold mark_notification_read
  split <;> rfl

/-- The bulk update of `mark_read` never changes a notification's owner. -/
theorem mark_notification_read_user (ids : List Nat) (u : Nat) (n : Notification) :
    (mark_notification_read ids u n).user = n.user := by
  unfold mark_notification_read
  split <;> rfl

/-- After the bulk update of `mark_read`, no matched row remains unread. -/
theorem mark_notification_read_none_left (ids : List Nat) (u : Nat) (n : Notification) :
    (ids.contains (mark_notification_read ids u n).id &&
     (mark_notification_read ids u n).user == u &&
     !(mark_notification_read ids u n).is_read) = false := by
  unfold mark_notification_read
  split
  · next hc => simp [hc]
  · next hc =>
      have hf : (ids.contains n.id && n.user == u) = false := eq_false_of_ne_true hc
      rw [hf]
      simp

/-- **C5, amended**: `mark_read` never raises — ids that do not exist or are
not owned by the caller simply have no effect (those rows are returned
unchanged) — and the matched-row count of the update equals the number of the
caller's own notifications among the ids *regardless of their read state*
(the view then discards this count); afterwards none of the caller's
notifications among the ids remains unread, and no row was added or
removed. -/
theorem mark_read_amended (s : Store) (u : Nat) (ids : List Nat) :
    (mark_read s u ids).2 =
      s.notifications.countP (fun n => ids.contains n.id && n.user == u) ∧
    (mark_read s u ids).1.notifications.filter
        (fun n => !(ids.contains n.id && n.user == u)) =
      s.notifications.filter (fun n => !(ids.contains n.id && n.user == u)) ∧
    (mark_read s u ids).1.notifications.countP
        (fun n => ids.contains n.id && n.user == u && !n.is_read) = 0 ∧
    (mark_read s u ids).1.notifications.length = s.notifications.length := by
  refine ⟨?_, ?_, ?_, ?_⟩
  · simp [mark_read, List.countP_eq_length_filter]
  · exact filter_map_of_invariant (mark_notification_read ids u)
      (fun n => !(ids.contains n.id && n.user == u)) s.notifications
      (fun a ha => mark_notification_read_skip ids u a (bool_false_of_not _ ha))
      (fun a => by
        simp only [mark_notification_read_id, mark_notification_read_user])
  · rw [List.countP_eq_zero]
    intro a ha
    rcases List.mem_map.mp ha with ⟨n, _, rfl⟩
    simpa using mark_notification_read_none_left ids u n
  · simp [mark_read]

/-! ## C7 — publish_slot validation -/

/-- Fixture: a store with one student and one instructor and no data rows. -/
def twoUserStore : Store := { emptyStore with users := [student1, instructor2] }

/-- **C7, counterexample**: an instructor publishes a slot with
`start_time ≥ end_time` and the call *succeeds*, creating the slot — no
`ValidationError` is raised anywhere; neither `TimeSlotSerializer` nor
`TimeSlotViewSet.perform_create` compares the two timestamps. -/
theorem publish_slot_accepts_inverted_range :
    (5 : Int) ≥ 3 ∧
    (publish_slot twoUserStore instructor2 5 3 false).map
        (fun r => (r.2.start_time, r.2.end_time, r.1.timeslots.length)) =
      .ok (5, 3, 1) :=
  ⟨by decide, rfl⟩

/-- **C7, amended**: the only check in `publish_slot` is the caller's role,
and the failure it produces is the view's `PermissionError`, not a
`ValidationError`; there is no time-range validation at all — an instructor
caller succeeds for every `(start_time, end_time)` pair, including
`start_time ≥ end_time`, creating an available slot with exactly the given
fields. -/
theorem publish_slot_amended (s : Store) (request_user : User)
    (start_time end_time : Int) (recurring : Bool) :
    publish_slot s request_user start_time end_time recurring =
      if request_user.role = "INSTRUCTOR" then
        .ok ({ s with
            timeslots := s.timeslots ++
              [⟨s.nextTimeSlotId, request_user.id, start_time, end_time, true, recurring⟩]
            nextTimeSlotId := s.nextTimeSlotId + 1 },
          ⟨s.nextTimeSlotId, request_user.id, start_time, end_time, true, recurring⟩)
      else .error .permissionError := by
  by_cases h : request_user.role = "INSTRUCTOR" <;> simp [publish_slot, h]

/-! ## C8 — create_booking validation -/

/-- **C8, counterexample**: `create_booking` with `start_date ≥ end_date`
and a negative amount succeeds and creates the booking — no
`ValidationError` is raised and no validation code exists in
`BookingService.create_booking` or `BookingCreateSerializer`. -/
theorem create_booking_accepts_invalid :
    (5 : Int) ≥ 3 ∧ (-1 : Int) < 0 ∧
    (create_booking twoUserStore student1 instructor2 5 3 (-1) none).1.bookings.map
        Booking.status = ["pending"] ∧
    twoUserStore.bookings = [] :=
  ⟨by decide, by decide, rfl, rfl⟩

/-- **C8, amended**: `create_booking` never fails and validates nothing: for
every input — including `start_date ≥ end_date` and `total_amount < 0` — it
appends exactly one booking carrying the given interval and amount, with
status `"pending"`. -/
theorem create_booking_amended (s : Store) (student instructor : User)
    (start_date end_date total_amount : Int) (homestay : Option Nat) :
    (create_booking s student instructor start_date end_date total_amount
        homestay).1.bookings =
      s.bookings ++ [(create_booking s student instructor start_date end_date
        total_amount homestay).2] ∧
    (create_booking s student instructor start_date end_date total_amount
        homestay).2.start_date = start_date ∧
    (create_booking s student instructor start_date end_date total_amount
        homestay).2.end_date = end_date ∧
    (create_booking s student instructor start_date end_date total_amount
        homestay).2.total_amount = total_amount ∧
    (create_booking s student instructor start_date end_date total_amount
        homestay).2.status = "pending" := by
  refine ⟨?_, rfl, rfl, rfl, rfl⟩
  simp [create_booking, send_notification]

/-! ## C9 — booking operations never touch time slots -/

/-- Fixture: an available slot of the instructor. -/
def c9_timeslot : TimeSlot := ⟨1, 2, 10, 11, true, false⟩

/-- Fixture: a pending booking of `student1` with `instructor2` over the
slot's interval. -/
def c9_booking : Booking := ⟨1, 1, 2, none, 10, 11, "pending", 5000, ""⟩

/-- Fixture: store for the C9 scenario. -/
def c9_store : Store :=
  { emptyStore with
      users := [student1, instructor2]
      timeslots := [c9_timeslot]
      bookings := [c9_booking]
      nextTimeSlotId := 2
      nextBookingId := 2 }

/-- Fixture: `c9_store` after the student cancels booking 1. -/
def c9_cancelled : Store :=
  { c9_store with bookings := [⟨1, 1, 2, none, 10, 11, "cancelled", 5000, ""⟩] }

/-- **C9, counterexample**: in the spec's own end-to-end scenario — an
available slot, a booking over its interval, then a cancellation — no
`TimeSlot` row ever changes: `is_available` stays `true` through both
`create_booking` and `cancel`, contradicting the claim that these operations
mutate the slot's availability flag. -/
theorem booking_never_touches_timeslot :
    c9_store.timeslots.map TimeSlot.is_available = [true] ∧
    (create_booking c9_store student1 instructor2 10 11 5000 none).1.timeslots =
      c9_store.timeslots ∧
    (cancel c9_store student1 1).map Store.timeslots = .ok c9_store.timeslots ∧
    c9_store.timeslots.map TimeSlot.is_available = [true] :=
  ⟨rfl, rfl, rfl, rfl⟩

/-- **C9, amended**: booking creation and cancellation never mutate any
`TimeSlot`: `create_booking` leaves the timeslots table unchanged, and so
does every successful `cancel` — in particular no `is_available` flag ever
changes through these operations. -/
theorem booking_ops_preserve_timeslots (s : Store) (student instructor : User)
    (start_date end_date total_amount : Int) (homestay : Option Nat)
    (request_user : User) (pk : Nat) (s' : Store)
    (hc : cancel s request_user pk = .ok s') :
    (create_booking s student instructor start_date end_date total_amount
        homestay).1.timeslots = s.timeslots ∧
    s'.timeslots = s.timeslots := by
  constructor
  · simp [create_booking, send_notification]
  · unfold cancel at hc
    cases hg : get_booking s request_user pk with
    | none => rw [hg] at hc; cases hc
    | some b =>
      rw [hg] at hc
      by_cases ha : b.student ≠ request_user.id ∧ b.instructor ≠ request_user.id
      · simp [ha] at hc
      · simp only [if_neg ha, Except.ok.injEq] at hc
        rw [← hc]

/-- Witness for `booking_ops_preserve_timeslots` on the concrete C9
scenario (the student cancels booking 1). -/
theorem booking_ops_preserve_timeslots_witness :
    (create_booking c9_store student1 instructor2 10 11 5000 none).1.timeslots =
      c9_store.timeslots ∧
    c9_cancelled.timeslots = c9_store.timeslots :=
  booking_ops_preserve_timeslots c9_store student1 instructor2 10 11 5000 none
    student1 1 c9_cancelled rfl

/-! ## C6 — direct_chat -/

/-- Fixture: a group conversation including users 1, 2 and 3. -/
def c6_group_conversation : Conversation := ⟨1, [1, 2, 3], "group", 4⟩

/-- Fixture: store with that group conversation. -/
def c6ce_store : Store :=
  { emptyStore with
      users := [student1, instructor2, student3]
      conversations := [c6_group_conversation]
      nextConversationId := 2 }

/-- **C6, counterexample**: `direct_chat` for users 1 and 2 returns the
*group* conversation whose participant set is `{1, 2, 3}` — not exactly
`{1, 2}`: the query only requires that both users be participants, so the
claim's "only if the participant set is exactly the pair" is false. -/
theorem direct_chat_returns_superset :
    (direct_chat c6ce_store student1 2 7).map (fun r => (r.2.id, r.2.participants)) =
      .ok (1, [1, 2, 3]) ∧
    student3.id ∈ c6_group_conversation.participants :=
  ⟨rfl, by decide⟩

/-- **C6, amended**: `direct_chat` returns an existing conversation whose
participants *include* both users (not necessarily exactly the two — a group
conversation qualifies); if no conversation contains both, it creates one
titled from the other participant's name with exactly the two participants;
and a second call for the same pair, in either order, returns the same
conversation and leaves the store unchanged. -/
theorem direct_chat_amended (s : Store) (ua ub : User) (now1 now2 : Nat)
    (s1 : Store) (c1 : Conversation)
    (hua : s.users.find? (fun u => u.id == ua.id) = some ua)
    (hub : s.users.find? (fun u => u.id == ub.id) = some ub)
    (hr : direct_chat s ua ub.id now1 = .ok (s1, c1)) :
    c1.participants.contains ua.id = true ∧
    c1.participants.contains ub.id = true ∧
    direct_chat s1 ub ua.id now2 = .ok (s1, c1) ∧
    (direct_chat_query s ua.id ub.id = none →
      c1.title = "Chat with " ++ ub.name ∧
      c1.participants = [ua.id, ub.id] ∧
      s1.conversations = s.conversations ++ [c1]) := by
  simp only [direct_chat, hub] at hr
  cases hq : direct_chat_query s ua.id ub.id with
  | some c =>
    rw [hq] at hr
    simp only [Except.ok.injEq, Prod.mk.injEq] at hr
    obtain ⟨rfl, rfl⟩ := hr
    have hpc := List.find?_some hq
    obtain ⟨hca, hcb⟩ := bool_and_split _ _ hpc
    have hq' : direct_chat_query s ub.id ua.id = some c := by
      unfold direct_chat_query
      rw [find?_ext
        (fun c => c.participants.contains ub.id && c.participants.contains ua.id)
        (fun c => c.participants.contains ua.id && c.participants.contains ub.id)
        (sortConvDesc s.conversations) (fun x => Bool.and_comm _ _)]
      exact hq
    refine ⟨hca, hcb, ?_, ?_⟩
    · simp only [direct_chat, hua, hq']
    · intro h
      exact absurd h (by simp [hq])
  | none =>
    rw [hq] at hr
    simp only [Except.ok.injEq, Prod.mk.injEq] at hr
    obtain ⟨rfl, rfl⟩ := hr
    have hq' : direct_chat_query
        { s with
            conversations := s.conversations ++
              [⟨s.nextConversationId, [ua.id, ub.id],
                "Chat with " ++ ub.name, now1⟩]
            nextConversationId := s.nextConversationId + 1 }
        ub.id ua.id =
        some ⟨s.nextConversationId, [ua.id, ub.id], "Chat with " ++ ub.name, now1⟩ := by
      unfold direct_chat_query
      apply find?_of_unique_match
      · rw [mem_sortConvDesc]
        exact List.mem_append_right _ (List.mem_singleton.mpr rfl)
      · simp
      · intro x hx hpx
        rw [mem_sortConvDesc] at hx
        rcases List.mem_append.mp hx with hx' | hx'
        · exfalso
          have hnone := List.find?_eq_none.mp hq x ((mem_sortConvDesc x _).mpr hx')
          apply hnone
          rw [Bool.and_comm] at hpx
          exact hpx
        · exact List.mem_singleton.mp hx'
    refine ⟨by simp, by simp, ?_, fun _ => ⟨rfl, rfl, rfl⟩⟩
    simp only [direct_chat, hua, hq']

/-- Fixture: the conversation `direct_chat` creates for users 1 and 2 on the
empty conversation table. -/
def c6_c1 : Conversation := ⟨1, [1, 2], "Chat with " ++ instructor2.name, 7⟩

/-- Fixture: `twoUserStore` after that creation. -/
def c6_store_after : Store :=
  { twoUserStore with conversations := [c6_c1], nextConversationId := 2 }

/-- Witness for `direct_chat_amended`: users 1 and 2 on a store with no
conversations — the first call creates the titled pair conversation and the
second call, with the pair reversed, returns the same conversation. -/
theorem direct_chat_amended_witness :
    c6_c1.participants.contains student1.id = true ∧
    c6_c1.participants.contains instructor2.id = true ∧
    direct_chat c6_store_after instructor2 student1.id 8 = .ok (c6_store_after, c6_c1) ∧
    c6_c1.title = "Chat with " ++ instructor2.name ∧
    c6_c1.participants = [student1.id, instructor2.id] ∧
    c6_store_after.conversations = twoUserStore.conversations ++ [c6_c1] := by
  have h := direct_chat_amended twoUserStore student1 instructor2 7 8 c6_store_after
    c6_c1 rfl rfl rfl
  exact ⟨h.1, h.2.1, h.2.2.1, (h.2.2.2 rfl).1, (h.2.2.2 rfl).2.1, (h.2.2.2 rfl).2.2⟩

/-! ## C10 — read_at is never set -/

/-- **C10**: no in-scope operation ever sets a message's `read_at`:
`send_message` carries every existing `read_at` over unchanged — including
for the rows whose read flag it flips to true — and the new message's
`read_at` is null, while `mark_read` (a notification update), `confirm`,
`cancel` and `create_booking` leave the messages table entirely untouched. -/
theorem read_at_never_set (s : Store) (cid : Nat) (sender : User) (content : String)
    (now : Nat) (sm : Store) (u : Nat) (ids : List Nat)
    (cu : User) (cpk : Nat) (sc : Store) (du : User) (dpk : Nat) (sd : Store)
    (student instructor : User) (start_date end_date total_amount : Int)
    (homestay : Option Nat)
    (hm : send_message s cid sender content now = .ok sm)
    (hc : confirm s cu cpk = .ok sc)
    (hd : cancel s du dpk = .ok sd) :
    sm.messages.map Message.read_at = s.messages.map Message.read_at ++ [none] ∧
    (mark_read s u ids).1.messages = s.messages ∧
    sc.messages = s.messages ∧
    sd.messages = s.messages ∧
    (create_booking s student instructor start_date end_date total_amount
        homestay).1.messages = s.messages := by
  refine ⟨?_, rfl, ?_, ?_, rfl⟩
  · cases hfc : s.conversations.find? (fun c => c.id == cid) with
    | none =>
      unfold send_message at hm
      rw [hfc] at hm
      cases hm
    | some conv =>
      simp only [send_message, hfc, Except.ok.injEq] at hm
      subst hm
      show ((s.messages ++ [(⟨s.nextMessageId, cid, sender.id, content, false, none⟩ : Message)]).map
          (mark_other_read cid sender.id)).map Message.read_at =
        s.messages.map Message.read_at ++ [none]
      rw [List.map_map,
        show (Message.read_at ∘ mark_other_read cid sender.id) = Message.read_at
          from funext (fun a => mark_other_read_read_at cid sender.id a),
        List.map_append]
      rfl
  · unfold confirm at hc
    cases hg : get_booking s cu cpk with
    | none => rw [hg] at hc; cases hc
    | some b =>
      rw [hg] at hc
      by_cases ha : b.instructor ≠ cu.id
      · simp [ha] at hc
      · simp only [if_neg ha, Except.ok.injEq] at hc
        rw [← hc]
  · unfold cancel at hd
    cases hg : get_booking s du dpk with
    | none => rw [hg] at hd; cases hd
    | some b =>
      rw [hg] at hd
      by_cases ha : b.student ≠ du.id ∧ b.instructor ≠ du.id
      · simp [ha] at hd
      · simp only [if_neg ha, Except.ok.injEq] at hd
        rw [← hd]

/-- Fixture: conversation for the C10 scenario. -/
def c10_conversation : Conversation := ⟨1, [1, 2], "", 0⟩

/-- Fixture: an unread message of user 2 in that conversation. -/
def c10_message : Message := ⟨1, 1, 2, "hello", false, none⟩

/-- Fixture: store for the C10 scenario, with a pending booking as well. -/
def c10_store : Store :=
  { emptyStore with
      users := [student1, instructor2]
      conversations := [c10_conversation]
      messages := [c10_message]
      bookings := [⟨1, 1, 2, none, 10, 11, "pending", 5000, ""⟩]
      nextConversationId := 2
      nextMessageId := 2
      nextBookingId := 2 }

/-- Fixture: `c10_store` after `student1` sends "hi" at tick 9. -/
def c10_sent : Store :=
  { c10_store with
      messages := [⟨1, 1, 2, "hello", true, none⟩, ⟨2, 1, 1, "hi", false, none⟩]
      conversations := [⟨1, [1, 2], "", 9⟩]
      nextMessageId := 3 }

/-- Fixture: `c10_store` after the instructor confirms booking 1. -/
def c10_confirmed : Store :=
  { c10_store with bookings := [⟨1, 1, 2, none, 10, 11, "confirmed", 5000, ""⟩] }

/-- Fixture: `c10_store` after the student cancels booking 1. -/
def c10_cancelled : Store :=
  { c10_store with bookings := [⟨1, 1, 2, none, 10, 11, "cancelled", 5000, ""⟩] }

/-- Witness for `read_at_never_set` on the concrete C10 scenario. -/
theorem read_at_never_set_witness :
    c10_sent.messages.map Message.read_at =
      c10_store.messages.map Message.read_at ++ [none] ∧
    (mark_read c10_store 1 [1]).1.messages = c10_store.messages ∧
    c10_confirmed.messages = c10_store.messages ∧
    c10_cancelled.messages = c10_store.messages ∧
    (create_booking c10_store student1 instructor2 10 11 5000
        none).1.messages = c10_store.messages :=
  read_at_never_set c10_store 1 student1 "hi" 9 c10_sent 1 [1] instructor2 1
    c10_confirmed student1 1 c10_cancelled student1 instructor2 10 11 5000 none
    rfl rfl rfl
